import Mathlib

/-!
Verification of the live-call monitoring core of the `filoas` hotel
dashboard.  The core is the `LiveCalls` component: an in-memory list of
call-session records mutated by a 1-second duration ticker, a 10-second
arrival/departure simulator, and operator actions (`handleCallAction`,
`endCall`, the listen/mute toggle buttons).  Every definition below is a
direct shallow embedding of that component's code; randomness
(`Math.random()`), the clock (`Date.now()`) and timer scheduling are made
explicit parameters.
-/

/-- The `sentiment` field: the code uses the strings positive / neutral / negative. -/
inductive Sentiment where
  | positive
  | neutral
  | negative
deriving DecidableEq, Repr

/-- The `status` field: the code uses the strings active / on_hold / transferring
(`getStatusColor` lists exactly these three). -/
inductive Status where
  | active
  | on_hold
  | transferring
deriving DecidableEq, Repr

/-- One live-call record, with the fields of the object literals in the
component (`id`, `callerNumber`, `callerName`, `intent`, `sentiment`,
`duration`, `startTime`, `status`).  `startTime` is the epoch-milliseconds
instant captured at creation (the code stores its ISO rendering); `duration`
is the elapsed seconds counter advanced by the ticker. -/
structure CallSession where
  id : String
  callerNumber : String
  callerName : String
  intent : String
  sentiment : Sentiment
  duration : Int
  startTime : Int
  status : Status
deriving DecidableEq, Repr

/-- The component state held in React `useState` hooks: the `liveCalls`
list (the session Store), `selectedCall`, and the two component-level
booleans `isListening` and `isMuted`. -/
@[ext]
structure UIState where
  liveCalls : List CallSession
  selectedCall : Option String
  isListening : Bool
  isMuted : Bool
deriving DecidableEq, Repr

/-- First entry of `initialLiveCalls` (duration 125, active);
`startTime` is `Date.now() - 125000`. -/
def call1 (now : Int) : CallSession :=
  { id := "live-1", callerNumber := "+91 98765 43210", callerName := "Rajesh Kumar",
    intent := "Booking Inquiry", sentiment := Sentiment.positive, duration := 125,
    startTime := now - 125000, status := Status.active }

/-- Second entry of `initialLiveCalls` (duration 87, active). -/
def call2 (now : Int) : CallSession :=
  { id := "live-2", callerNumber := "+91 98765 43211", callerName := "Priya Sharma",
    intent := "Room Service", sentiment := Sentiment.neutral, duration := 87,
    startTime := now - 87000, status := Status.active }

/-- Third entry of `initialLiveCalls` (duration 23, on hold). -/
def call3 (now : Int) : CallSession :=
  { id := "live-3", callerNumber := "+91 98765 43212", callerName := "Waiting...",
    intent := "Unknown", sentiment := Sentiment.neutral, duration := 23,
    startTime := now - 23000, status := Status.on_hold }

/-- The `initialLiveCalls` mock list, parameterised by the clock value
`now` read when the module is evaluated. -/
def initialLiveCalls (now : Int) : List CallSession :=
  [call1 now, call2 now, call3 now]

/-- Initial component state: `useState(initialLiveCalls)`, `useState(null)`,
`useState(false)`, `useState(false)`. -/
def initState (now : Int) : UIState :=
  { liveCalls := initialLiveCalls now, selectedCall := none,
    isListening := false, isMuted := false }

/-- One step of the 1-second interval: `prev.map(call => ({...call,
duration: call.duration + 1}))`. -/
def tick (st : UIState) : UIState :=
  { st with liveCalls := st.liveCalls.map (fun c => { c with duration := c.duration + 1 }) }

/-- The session synthesized by the simulator on a successful arrival draw.
`now` is `Date.now()` and `rn` the draw `Math.floor(Math.random() * 10000000000)`
used for the caller number. -/
def newCall (now : Int) (rn : Nat) : CallSession :=
  { id := "live-" ++ toString now, callerNumber := "+91 " ++ toString rn,
    callerName := "Incoming Call...", intent := "Unknown",
    sentiment := Sentiment.neutral, duration := 0, startTime := now,
    status := Status.on_hold }

/-- Threshold of the arrival test `Math.random() > 0.8`. -/
def arrivalThreshold : ℚ := 8 / 10

/-- One step of the 10-second simulator interval: if the uniform draw `r`
exceeds 0.8, append a fresh session, else do nothing. -/
def simTick (st : UIState) (r : ℚ) (now : Int) (rn : Nat) : UIState :=
  if arrivalThreshold < r then
    { st with liveCalls := st.liveCalls ++ [newCall now rn] }
  else st

/-- Scheduled lifespan of a simulated call, in milliseconds:
`Math.random() * 30000 + 10000` applied to the uniform draw `r2`. -/
def lifespanMs (r2 : ℚ) : ℚ :=
  r2 * 30000 + 10000

/-- The simulator's delayed removal callback:
`prev.filter(call => call.id !== newCall.id)`. -/
def simRemove (st : UIState) (callId : String) : UIState :=
  { st with liveCalls := st.liveCalls.filter (fun c => decide (¬ c.id = callId)) }

/-- The `stats` object computed on each render. -/
structure Stats where
  activeCalls : Nat
  waitingCalls : Nat
  totalAgents : Nat
  availableAgents : Nat
deriving DecidableEq, Repr

/-- The `stats` object: counts of active and on-hold sessions from one read of
`liveCalls`, plus the hard-coded agent numbers 5 and 2. -/
def stats (calls : List CallSession) : Stats :=
  { activeCalls := (calls.filter (fun c => decide (c.status = Status.active))).length,
    waitingCalls := (calls.filter (fun c => decide (c.status = Status.on_hold))).length,
    totalAgents := 5,
    availableAgents := 2 }

/-- Dispatch `handleCallAction(callId, action)`: every session whose id matches gets
`status` rewritten to `active` when the action is the string `answer` and to
`on_hold` for any other action string; no other field and no other session
is touched, and no validation of the current status happens. -/
def handleCallAction (st : UIState) (callId : String) (action : String) : UIState :=
  { st with liveCalls := st.liveCalls.map (fun c =>
      if c.id = callId then
        { c with status := if action = "answer" then Status.active else Status.on_hold }
      else c) }

/-- Termination `endCall(callId)`: drop every session whose id matches and clear
`selectedCall` when it pointed at that id. -/
def endCall (st : UIState) (callId : String) : UIState :=
  { st with
    liveCalls := st.liveCalls.filter (fun c => decide (¬ c.id = callId)),
    selectedCall := if st.selectedCall = some callId then none else st.selectedCall }

/-- The Listen button's handler, `setIsListening(!isListening)`: it flips
the single component-level flag and mentions no session. -/
def toggleListen (st : UIState) : UIState :=
  { st with isListening := !st.isListening }

/-- The Mute button's handler, `setIsMuted(!isMuted)`. -/
def toggleMute (st : UIState) : UIState :=
  { st with isMuted := !st.isMuted }

/-- Pressing Listen on the card of session `callId`: the button is rendered
only inside the `call.status === 'active'` branch of the card, so the click
is possible (and runs `toggleListen`) exactly when the session exists with
status active; otherwise the state cannot change. -/
def clickListen (st : UIState) (callId : String) : UIState :=
  match st.liveCalls.find? (fun c => decide (c.id = callId)) with
  | some c => if c.status = Status.active then toggleListen st else st
  | none => st

/-- Pressing Mute on the card of session `callId`, same rendering guard as
the Listen button. -/
def clickMute (st : UIState) (callId : String) : UIState :=
  match st.liveCalls.find? (fun c => decide (c.id = callId)) with
  | some c => if c.status = Status.active then toggleMute st else st
  | none => st

/-- Value an operator command call hands back to its caller: the JS
handlers are statement-bodied arrow functions, so every call evaluates to
undefined; the pair returns the updated state together with that (unit)
return value. -/
def answerCommand (st : UIState) (callId : String) : UIState × Unit :=
  (handleCallAction st callId "answer", ())

/-- The operations of the core that can touch the Store, as one alphabet:
ticker tick, simulator arrival draw, simulator removal callback, action
dispatch, end, the two toggle clicks, and card selection. -/
inductive Op where
  | tickOp
  | simOp (r : ℚ) (now : Int) (rn : Nat)
  | removeOp (callId : String)
  | actionOp (callId : String) (action : String)
  | endOp (callId : String)
  | listenOp (callId : String)
  | muteOp (callId : String)
  | selectOp (sel : Option String)

/-- Interpretation of one operation on the component state. -/
def applyOp : Op → UIState → UIState
  | Op.tickOp, st => tick st
  | Op.simOp r now rn, st => simTick st r now rn
  | Op.removeOp callId, st => simRemove st callId
  | Op.actionOp callId action, st => handleCallAction st callId action
  | Op.endOp callId, st => endCall st callId
  | Op.listenOp callId, st => clickListen st callId
  | Op.muteOp callId, st => clickMute st callId
  | Op.selectOp sel, st => { st with selectedCall := sel }

/-- A finite run of the core from a state. -/
def applyOps (ops : List Op) (st : UIState) : UIState :=
  ops.foldl (fun s op => applyOp op s) st

/-- All durations in a session list are non-negative. -/
def durOK (l : List CallSession) : Bool :=
  l.all (fun c => decide (0 ≤ c.duration))

/-- Transition-table preconditions of the Action Dispatcher.  Modelled from
the spec: the design's §4.4 table (answer requires on_hold, hold / mute
toggle / listen toggle require active, end is always legal); the component
itself contains no such table. -/
def specPrecondHolds (action : String) (s : Status) : Bool :=
  if action = "answer" then decide (s = Status.on_hold)
  else if action = "hold" then decide (s = Status.active)
  else if action = "end" then true
  else if action = "mute" then decide (s = Status.active)
  else if action = "listen" then decide (s = Status.active)
  else false

/-- A session stuck in `transferring`, used as a concrete probe state. -/
def transferCall : CallSession :=
  { id := "live-t", callerNumber := "+91 00000 00000", callerName := "T",
    intent := "Unknown", sentiment := Sentiment.neutral, duration := 5,
    startTime := 0, status := Status.transferring }

/-- Probe state holding only the transferring session. -/
def stT : UIState :=
  { liveCalls := [transferCall], selectedCall := none,
    isListening := false, isMuted := false }

/-- The initial component state at clock value 0. -/
def st0 : UIState := initState 0

section Helpers

/-- Mapping a function that fixes every member of a list is the identity. -/
theorem map_eq_self_of {α : Type} (l : List α) (f : α → α)
    (h : ∀ a ∈ l, f a = a) : l.map f = l := by
  induction l with
  | nil => rfl
  | cons a t ih =>
    simp only [List.map_cons, List.cons.injEq]
    exact ⟨h a (by simp), ih (fun x hx => h x (by simp [hx]))⟩

/-- Filtering with a predicate true on every member of a list is the
identity. -/
theorem filter_eq_self_of {α : Type} (l : List α) (p : α → Bool)
    (h : ∀ a ∈ l, p a = true) : l.filter p = l := by
  induction l with
  | nil => rfl
  | cons a t ih =>
    simp only [List.filter_cons, h a (by simp), if_pos]
    simp only [List.cons.injEq, true_and]
    exact ih (fun x hx => h x (by simp [hx]))

/-- Two disjoint filters of one list together keep at most its length. -/
theorem length_filter_disjoint_le {α : Type} (l : List α) (p q : α → Bool)
    (hpq : ∀ x, p x = true → q x = false) :
    (l.filter p).length + (l.filter q).length ≤ l.length := by
  induction l with
  | nil => simp
  | cons a t ih =>
    by_cases hp : p a = true
    · have hq := hpq a hp
      simp only [List.filter_cons, hp, hq, if_pos, Bool.false_eq_true, if_neg,
        not_false_iff, List.length_cons]
      omega
    · have hp' : p a = false := by
        cases hpa : p a
        · rfl
        · exact absurd hpa hp
      cases hqa : q a
      · simp only [List.filter_cons, hp', hqa, Bool.false_eq_true, if_neg,
          not_false_iff, List.length_cons]
        omega
      · simp only [List.filter_cons, hp', hqa, Bool.false_eq_true, if_neg,
          not_false_iff, if_pos, List.length_cons]
        omega

end Helpers

/-- C5: proved. The stats are two counts over one read of the session list, of
the disjoint statuses active and on_hold, so their sum never exceeds the
number of sessions in that snapshot. -/
theorem c5_stats_counts_bounded (calls : List CallSession) :
    (stats calls).activeCalls + (stats calls).waitingCalls ≤ calls.length := by
  have h := length_filter_disjoint_le calls
    (fun c => decide (c.status = Status.active))
    (fun c => decide (c.status = Status.on_hold))
    (by
      intro x hx
      simp only [decide_eq_true_eq] at hx
      simp [hx])
  simpa [stats] using h

/-- C9: proved. `totalAgents` and `availableAgents` are the hard-coded
pass-through values 5 and 2: they are the same for every session list,
including the empty one. -/
theorem c9_agents_pass_through (calls1 calls2 : List CallSession) :
    (stats calls1).totalAgents = 5 ∧ (stats calls1).availableAgents = 2
    ∧ (stats calls1).totalAgents = (stats calls2).totalAgents
    ∧ (stats calls1).availableAgents = (stats calls2).availableAgents := by
  refine ⟨rfl, rfl, rfl, rfl⟩

/-- C2: proved. One ticker tick maps `duration + 1` over the whole list: the
length is preserved, the session at each position is exactly the old one
with `duration` incremented by 1 and every other field untouched, the rest
of the component state is untouched, and the tick of an empty Store is a
no-op.  A session appended only after `tick` has been applied is, by
construction, not part of the mapped list. -/
theorem c2_tick_increments_each_session (st : UIState) :
    (tick st).liveCalls.length = st.liveCalls.length
    ∧ (∀ i : Nat, (tick st).liveCalls[i]? =
        (st.liveCalls[i]?).map (fun c => { c with duration := c.duration + 1 }))
    ∧ (tick st).selectedCall = st.selectedCall
    ∧ (tick st).isListening = st.isListening
    ∧ (tick st).isMuted = st.isMuted
    ∧ tick { st with liveCalls := [] } = { st with liveCalls := [] } := by
  refine ⟨by simp [tick], ?_, rfl, rfl, rfl, rfl⟩
  intro i
  simp [tick, List.getElem?_map]

/-- C4: proved. `endCall` filters the id out of the Store: afterwards no session
carries that id; a second `endCall` on the same id (on the full component
state, `selectedCall` included) is the identity; when the id is absent —
for instance because the simulator's removal callback already filtered it
out — `endCall` leaves the Store unchanged, and being a total function it
cannot error. -/
theorem c4_end_idempotent (st : UIState) (callId : String) :
    (∀ c ∈ (endCall st callId).liveCalls, ¬ c.id = callId)
    ∧ endCall (endCall st callId) callId = endCall st callId
    ∧ ((∀ c ∈ st.liveCalls, ¬ c.id = callId) →
        (endCall st callId).liveCalls = st.liveCalls)
    ∧ (endCall (simRemove st callId) callId).liveCalls
        = (simRemove st callId).liveCalls := by
  have habsent : ∀ c ∈ st.liveCalls.filter (fun c => decide (¬ c.id = callId)),
      ¬ c.id = callId := by
    intro c hc
    have := List.of_mem_filter hc
    simpa using this
  refine ⟨habsent, ?_, ?_, ?_⟩
  · ext1
    · show (st.liveCalls.filter _).filter _ = st.liveCalls.filter _
      exact filter_eq_self_of _ _ (fun c hc => by simpa using habsent c hc)
    · show (if (if st.selectedCall = some callId then none else st.selectedCall)
          = some callId then none
          else (if st.selectedCall = some callId then none else st.selectedCall))
        = (if st.selectedCall = some callId then none else st.selectedCall)
      by_cases h : st.selectedCall = some callId <;> simp [h]
    · rfl
    · rfl
  · intro h
    exact filter_eq_self_of _ _ (fun c hc => by simpa using h c hc)
  · apply filter_eq_self_of
    intro c hc
    have := List.of_mem_filter hc
    simpa using this

/-- Witness for C4 at the initial state: ending the absent id "ghost" keeps
the Store, and ending "live-1" twice equals ending it once. -/
theorem c4_end_idempotent_witness :
    (endCall st0 "ghost").liveCalls = st0.liveCalls
    ∧ endCall (endCall st0 "live-1") "live-1" = endCall st0 "live-1" :=
  ⟨(c4_end_idempotent st0 "ghost").2.2.1 (by decide),
   (c4_end_idempotent st0 "live-1").2.1⟩

/-- C1, counterexample. The dispatcher performs no precondition check:
`answer` on the transferring session — whose precondition `status = on_hold`
from the spec's transition table fails — is not rejected; it rewrites the
session's status to active and so modifies the Store, and no
InvalidTransition condition exists anywhere in the component. -/
theorem c1_unmet_precondition_modifies_store :
    specPrecondHolds "answer" Status.transferring = false
    ∧ ¬ (handleCallAction stT "live-t" "answer").liveCalls = stT.liveCalls := by
  decide

/-- C1, amended. The special case the spec names is a no-op for a
different reason: when every session carrying the target id is already
active, `answer` rewrites their status to the value it already has, so the
whole component state is unchanged — but nothing is reported, and unmet
preconditions in general are not rejected. -/
theorem c1_answer_on_active_noop (st : UIState) (callId : String)
    (h : ∀ c ∈ st.liveCalls, c.id = callId → c.status = Status.active) :
    handleCallAction st callId "answer" = st := by
  have hmap : st.liveCalls.map (fun c =>
      if c.id = callId then
        { c with status := if "answer" = "answer" then Status.active else Status.on_hold }
      else c) = st.liveCalls := by
    apply map_eq_self_of
    intro c hc
    by_cases hid : c.id = callId
    · have hs := h c hc hid
      cases c
      simp only at hs
      simp [hid, hs]
    · simp [hid]
  show { st with liveCalls := _ } = st
  rw [hmap]

/-- Witness for C1 amended: answering the already-active session live-1 in
the initial state changes nothing. -/
theorem c1_answer_on_active_noop_witness :
    handleCallAction st0 "live-1" "answer" = st0 :=
  c1_answer_on_active_noop st0 "live-1" (by decide)

/-- C10: proved. For any action string other than `answer`, the dispatcher
unconditionally rewrites the status of every id-matching session to
`on_hold` — no validation against the current status — touching no other
field of that session, leaving sessions with a different id as they are,
and leaving the rest of the component state untouched. -/
theorem c10_non_answer_forces_on_hold (st : UIState) (callId action : String)
    (h : ¬ action = "answer") :
    (handleCallAction st callId action).liveCalls
      = st.liveCalls.map (fun c =>
          if c.id = callId then { c with status := Status.on_hold } else c)
    ∧ (handleCallAction st callId action).selectedCall = st.selectedCall
    ∧ (handleCallAction st callId action).isListening = st.isListening
    ∧ (handleCallAction st callId action).isMuted = st.isMuted := by
  refine ⟨?_, rfl, rfl, rfl⟩
  show st.liveCalls.map _ = st.liveCalls.map _
  apply List.map_congr_left
  intro c _
  by_cases hid : c.id = callId
  · simp [hid, h]
  · simp [hid]

/-- Witness for C10: dispatching `hold` against the active session live-1
of the initial state puts it on hold. -/
theorem c10_non_answer_forces_on_hold_witness :
    (handleCallAction st0 "live-1" "hold").liveCalls
      = st0.liveCalls.map (fun c =>
          if c.id = "live-1" then { c with status := Status.on_hold } else c) :=
  (c10_non_answer_forces_on_hold st0 "live-1" "hold" (by decide)).1

/-- C3, counterexample. The listen flag is not session-scoped: in the
initial state both live-1 and live-2 are active, and pressing Listen on
live-1 produces literally the same state as pressing it on live-2 — the
single component-level `isListening` boolean flips while every session
record, live-1 included, stays exactly as it was.  Were the flag a flag of
the targeted session, the two results would differ in which session carries
it; no session carries any such flag. -/
theorem c3_listen_flag_is_global :
    clickListen st0 "live-1" = clickListen st0 "live-2"
    ∧ (clickListen st0 "live-1").liveCalls = st0.liveCalls
    ∧ ¬ (clickListen st0 "live-1").isListening = st0.isListening := by
  decide

/-- C3, amended. The toggles are component-global: when the card of
`callId` shows a session, pressing Listen (resp. Mute) flips the one
component-level `isListening` (resp. `isMuted`) boolean if that session is
active — leaving `liveCalls`, and with it every session's duration and
status, untouched and independent of which active session was targeted —
and when the session is not active the buttons are not rendered, so the
press is impossible and the state is unchanged, with no InvalidTransition
condition (none exists in the component). -/
theorem c3_toggles_are_component_flags (st : UIState) (callId : String)
    (c : CallSession)
    (h : st.liveCalls.find? (fun x => decide (x.id = callId)) = some c) :
    (c.status = Status.active →
      clickListen st callId = { st with isListening := !st.isListening }
      ∧ clickMute st callId = { st with isMuted := !st.isMuted })
    ∧ (¬ c.status = Status.active →
      clickListen st callId = st ∧ clickMute st callId = st) := by
  constructor
  · intro hact
    constructor
    · show (match st.liveCalls.find? (fun x => decide (x.id = callId)) with
        | some c => if c.status = Status.active then toggleListen st else st
        | none => st) = _
      rw [h]
      simp [hact, toggleListen]
    · show (match st.liveCalls.find? (fun x => decide (x.id = callId)) with
        | some c => if c.status = Status.active then toggleMute st else st
        | none => st) = _
      rw [h]
      simp [hact, toggleMute]
  · intro hact
    constructor
    · show (match st.liveCalls.find? (fun x => decide (x.id = callId)) with
        | some c => if c.status = Status.active then toggleListen st else st
        | none => st) = _
      rw [h]
      simp [hact]
    · show (match st.liveCalls.find? (fun x => decide (x.id = callId)) with
        | some c => if c.status = Status.active then toggleMute st else st
        | none => st) = _
      rw [h]
      simp [hact]

/-- Witness for C3 amended: pressing Listen and Mute on the active session
live-1 of the initial state flips exactly the corresponding component flag. -/
theorem c3_toggles_are_component_flags_witness :
    clickListen st0 "live-1" = { st0 with isListening := !st0.isListening }
    ∧ clickMute st0 "live-1" = { st0 with isMuted := !st0.isMuted } :=
  (c3_toggles_are_component_flags st0 "live-1" (call1 0) (by decide)).1 (by decide)

/-- C8, counterexample. No "not found" outcome is reported: the command
handlers return undefined in every case, so answering the absent id "ghost"
hands the caller exactly the same return value as the successful answer of
the on-hold session live-3 — the two calls are indistinguishable to the
caller except through the Store, which only the successful one changes. -/
theorem c8_no_not_found_report :
    (answerCommand st0 "ghost").2 = (answerCommand st0 "live-3").2
    ∧ (answerCommand st0 "ghost").1.liveCalls = st0.liveCalls
    ∧ ¬ (answerCommand st0 "live-3").1.liveCalls = st0.liveCalls := by
  decide

/-- C8, amended. Every operator command aimed at an id no session
carries is a silent no-op: the dispatcher's map fixes every session, the
end filter keeps every session, the toggle clicks find no card, and the
simulator's removal filter keeps every session — all total functions, so
nothing can crash — but the miss is not reported to the caller. -/
theorem c8_missing_id_noop (st : UIState) (callId action : String)
    (h : ∀ c ∈ st.liveCalls, ¬ c.id = callId) :
    (handleCallAction st callId action).liveCalls = st.liveCalls
    ∧ (endCall st callId).liveCalls = st.liveCalls
    ∧ clickListen st callId = st
    ∧ clickMute st callId = st
    ∧ (simRemove st callId).liveCalls = st.liveCalls := by
  have hfind : st.liveCalls.find? (fun c => decide (c.id = callId)) = none := by
    rw [List.find?_eq_none]
    intro c hc
    simpa using h c hc
  refine ⟨?_, ?_, ?_, ?_, ?_⟩
  · apply map_eq_self_of
    intro c hc
    simp [h c hc]
  · exact filter_eq_self_of _ _ (fun c hc => by simpa using h c hc)
  · show (match st.liveCalls.find? (fun c => decide (c.id = callId)) with
      | some c => if c.status = Status.active then toggleListen st else st
      | none => st) = st
    rw [hfind]
  · show (match st.liveCalls.find? (fun c => decide (c.id = callId)) with
      | some c => if c.status = Status.active then toggleMute st else st
      | none => st) = st
    rw [hfind]
  · exact filter_eq_self_of _ _ (fun c hc => by simpa using h c hc)

/-- Witness for C8 amended: every command on the absent id "ghost" leaves
the initial state's Store alone. -/
theorem c8_missing_id_noop_witness :
    (handleCallAction st0 "ghost" "answer").liveCalls = st0.liveCalls
    ∧ (endCall st0 "ghost").liveCalls = st0.liveCalls
    ∧ clickListen st0 "ghost" = st0
    ∧ clickMute st0 "ghost" = st0
    ∧ (simRemove st0 "ghost").liveCalls = st0.liveCalls :=
  c8_missing_id_noop st0 "ghost" "answer" (by decide)

/-- C6: proved. One simulator tick appends a session exactly when the uniform
draw exceeds the 0.8 threshold — an event of measure 1/5 for a uniform
draw, i.e. probability 0.2 — and otherwise changes nothing; the appended
session carries a fresh clock-derived id, the placeholder name and intent,
neutral sentiment, duration 0 and status on_hold; and the scheduled removal
delay `r2 * 30000 + 10000` lies in the 10-to-40-second band (in
milliseconds) for every draw `r2` in `[0, 1)`. -/
theorem c6_simulator_arrival (st : UIState) (r : ℚ) (now : Int) (rn : Nat) (r2 : ℚ) :
    (¬ arrivalThreshold < r → simTick st r now rn = st)
    ∧ (arrivalThreshold < r →
        simTick st r now rn = { st with liveCalls := st.liveCalls ++ [newCall now rn] })
    ∧ newCall now rn =
        { id := "live-" ++ toString now, callerNumber := "+91 " ++ toString rn,
          callerName := "Incoming Call...", intent := "Unknown",
          sentiment := Sentiment.neutral, duration := 0, startTime := now,
          status := Status.on_hold }
    ∧ (0 ≤ r2 → r2 < 1 → 10000 ≤ lifespanMs r2 ∧ lifespanMs r2 < 40000)
    ∧ MeasureTheory.volume (Set.Ioo ((arrivalThreshold : ℝ)) 1) = ENNReal.ofReal (1 / 5) := by
  refine ⟨?_, ?_, rfl, ?_, ?_⟩
  · intro h
    simp [simTick, h]
  · intro h
    simp [simTick, h]
  · intro h0 h1
    unfold lifespanMs
    constructor
    · nlinarith
    · nlinarith
  · rw [Real.volume_Ioo]
    congr 1
    rw [arrivalThreshold]
    push_cast
    norm_num

/-- Witness for C6: with draw 9/10 the arrival fires on the initial state,
and the removal delay of draw 1/2 is 25000 ms, inside the band. -/
theorem c6_simulator_arrival_witness :
    simTick st0 (9 / 10) 0 0 = { st0 with liveCalls := st0.liveCalls ++ [newCall 0 0] }
    ∧ 10000 ≤ lifespanMs (1 / 2) ∧ lifespanMs (1 / 2) < 40000 :=
  ⟨(c6_simulator_arrival st0 (9 / 10) 0 0 (1 / 2)).2.1 (by norm_num [arrivalThreshold]),
   (c6_simulator_arrival st0 (9 / 10) 0 0 (1 / 2)).2.2.2.1 (by norm_num) (by norm_num)⟩

/-- The toggle clicks never touch the session list. -/
theorem clickListen_liveCalls (st : UIState) (callId : String) :
    (clickListen st callId).liveCalls = st.liveCalls := by
  unfold clickListen
  split
  · split
    · rfl
    · rfl
  · rfl

/-- The mute click never touches the session list. -/
theorem clickMute_liveCalls (st : UIState) (callId : String) :
    (clickMute st callId).liveCalls = st.liveCalls := by
  unfold clickMute
  split
  · split
    · rfl
    · rfl
  · rfl

/-- Every session present after one operation is either the image of a
session with the same id that was present before, with duration not
decreased, or a freshly created session with duration 0. -/
theorem applyOp_mem (op : Op) (st : UIState) :
    ∀ c' ∈ (applyOp op st).liveCalls,
      (∃ c ∈ st.liveCalls, c.id = c'.id ∧ c.duration ≤ c'.duration)
      ∨ c'.duration = 0 := by
  intro c' hc'
  cases op with
  | tickOp =>
    simp only [applyOp, tick, List.mem_map] at hc'
    obtain ⟨c, hc, rfl⟩ := hc'
    exact Or.inl ⟨c, hc, rfl, by simp⟩
  | simOp r now rn =>
    by_cases hr : arrivalThreshold < r
    · simp only [applyOp, simTick, if_pos hr, List.mem_append, List.mem_singleton] at hc'
      rcases hc' with hc' | rfl
      · exact Or.inl ⟨c', hc', rfl, le_refl _⟩
      · exact Or.inr rfl
    · simp only [applyOp, simTick, if_neg hr] at hc'
      exact Or.inl ⟨c', hc', rfl, le_refl _⟩
  | removeOp callId =>
    simp only [applyOp, simRemove] at hc'
    exact Or.inl ⟨c', List.mem_of_mem_filter hc', rfl, le_refl _⟩
  | actionOp callId action =>
    simp only [applyOp, handleCallAction, List.mem_map] at hc'
    obtain ⟨c, hc, rfl⟩ := hc'
    by_cases hid : c.id = callId
    · exact Or.inl ⟨c, hc, by simp [hid], by simp [hid]⟩
    · exact Or.inl ⟨c, hc, by simp [hid], by simp [hid]⟩
  | endOp callId =>
    simp only [applyOp, endCall] at hc'
    exact Or.inl ⟨c', List.mem_of_mem_filter hc', rfl, le_refl _⟩
  | listenOp callId =>
    rw [show (applyOp (Op.listenOp callId) st) = clickListen st callId from rfl,
      clickListen_liveCalls] at hc'
    exact Or.inl ⟨c', hc', rfl, le_refl _⟩
  | muteOp callId =>
    rw [show (applyOp (Op.muteOp callId) st) = clickMute st callId from rfl,
      clickMute_liveCalls] at hc'
    exact Or.inl ⟨c', hc', rfl, le_refl _⟩
  | selectOp sel =>
    exact Or.inl ⟨c', hc', rfl, le_refl _⟩

/-- One operation preserves non-negativity of all durations. -/
theorem durOK_applyOp (op : Op) (st : UIState) (h : durOK st.liveCalls = true) :
    durOK (applyOp op st).liveCalls = true := by
  simp only [durOK, List.all_eq_true, decide_eq_true_eq] at h ⊢
  intro c' hc'
  rcases applyOp_mem op st c' hc' with ⟨c, hc, _, hle⟩ | h0
  · have := h c hc
    omega
  · omega

/-- Any run of operations preserves non-negativity of all durations. -/
theorem durOK_applyOps (ops : List Op) (st : UIState) (h : durOK st.liveCalls = true) :
    durOK (applyOps ops st).liveCalls = true := by
  induction ops generalizing st with
  | nil => exact h
  | cons op ops ih => exact ih _ (durOK_applyOp op st h)

/-- C7: proved. Durations never go negative and never decrease: from any state
with non-negative durations, one operation keeps them non-negative; every
session present afterwards and already present before (same id) has a
duration at least its old one (fresh sessions start at 0); and along any
run from the initial state every duration stays non-negative. -/
theorem c7_duration_nonneg_monotone (op : Op) (st : UIState) (ops : List Op) (now : Int)
    (h : durOK st.liveCalls = true) :
    durOK (applyOp op st).liveCalls = true
    ∧ (∀ c' ∈ (applyOp op st).liveCalls,
        (∃ c ∈ st.liveCalls, c.id = c'.id ∧ c.duration ≤ c'.duration)
        ∨ c'.duration = 0)
    ∧ durOK (applyOps ops (initState now)).liveCalls = true := by
  refine ⟨durOK_applyOp op st h, applyOp_mem op st, durOK_applyOps ops (initState now) rfl⟩

/-- Witness for C7: a tick on the initial state keeps durations
non-negative, as does a tick followed by ending live-1. -/
theorem c7_duration_nonneg_monotone_witness :
    durOK (applyOp Op.tickOp st0).liveCalls = true
    ∧ durOK (applyOps [Op.tickOp, Op.endOp "live-1"] (initState 0)).liveCalls = true :=
  ⟨(c7_duration_nonneg_monotone Op.tickOp st0 [] 0 (by decide)).1,
   (c7_duration_nonneg_monotone Op.tickOp st0 [Op.tickOp, Op.endOp "live-1"] 0
      (by decide)).2.2⟩
